import Mathlib

/-!
Shallow embedding of the 3d-view renderer (src/main.go).

Go float64 values are modelled as real numbers; the external rendering
surface (imdraw/pixelgl) is modelled by recording the sequence of vertices
the core pushes to it.  Go panics are modelled by Except / Option results.
-/

namespace ThreeDView

noncomputable section

/-- A position in 3D space (Go struct Point, src/main.go:17). -/
structure Point where
  X : ℝ
  Y : ℝ
  Z : ℝ

/-- A basis row of a matrix (Go struct Vector, src/main.go:30). -/
structure Vector where
  X : ℝ
  Y : ℝ
  Z : ℝ

/-- A 3x3 transform as three basis row-vectors (Go struct Matrix, src/main.go:34). -/
structure Matrix where
  X : Vector
  Y : Vector
  Z : Vector

/-- Colors are opaque values coming from the colornames package; only
equality of colors matters to the core, so we model them as naturals. -/
abbrev Color := ℕ

/-- An ordered point sequence with a fill color (Go struct Polygon, src/main.go:21). -/
structure Polygon where
  Points : List Point
  Color : Color

/-- Row-vector times matrix (Go func matrixMultiply, src/main.go:198). -/
def matrixMultiply (m : Matrix) (p : Point) : Point :=
  { X := p.X * m.X.X + p.Y * m.Y.X + p.Z * m.Z.X
    Y := p.X * m.X.Y + p.Y * m.Y.Y + p.Z * m.Z.Y
    Z := p.X * m.X.Z + p.Y * m.Y.Z + p.Z * m.Z.Z }

/-- Arithmetic-mean centroid (Go func computeCentroid, src/main.go:66).
The Go loop accumulates the three coordinate sums, then divides by the
point count. -/
def computeCentroid (points : List Point) : Point :=
  let sumX : ℝ := points.foldl (fun acc p => acc + p.X) 0
  let sumY : ℝ := points.foldl (fun acc p => acc + p.Y) 0
  let sumZ : ℝ := points.foldl (fun acc p => acc + p.Z) 0
  let n : ℝ := points.length
  { X := sumX / n, Y := sumY / n, Z := sumZ / n }

/-- Euclidean distance (Go func euclideanDistance, src/main.go:93). -/
def euclideanDistance (a b : Point) : ℝ :=
  Real.sqrt ((b.X - a.X) ^ 2 + (b.Y - a.Y) ^ 2 + (b.Z - a.Z) ^ 2)

/-- The error raised when a polygon is built from fewer than 3 points. -/
inductive GeometryError where
  | InvalidGeometry
deriving DecidableEq

/-- Polygon constructor (Go func NewPolygon, src/main.go:83); the Go panic
for fewer than 3 points is modelled as an error result. -/
def NewPolygon (points : List Point) (color : Color) : Except GeometryError Polygon :=
  if points.length < 3 then
    .error .InvalidGeometry
  else
    .ok { Points := points, Color := color }

/-- Per-point linear transform producing a fresh polygon
(Go func Polygon.Transform, src/main.go:51); the Go code inlines the same
row-vector product as matrixMultiply for each point. -/
def Polygon.Transform (p : Polygon) (m : Matrix) : Polygon :=
  { Points :=
      p.Points.map (fun point =>
        { X := point.X * m.X.X + point.Y * m.Y.X + point.Z * m.Z.X
          Y := point.X * m.X.Y + point.Y * m.Y.Y + point.Z * m.Z.Y
          Z := point.X * m.X.Z + point.Y * m.Y.Z + point.Z * m.Z.Z })
    Color := p.Color }

/-- A 2D vertex as handed to the drawing surface (pixel.V drops nothing,
but build only passes X and Y, dropping Z). -/
structure Vec2 where
  X : ℝ
  Y : ℝ

/-- What one Polygon.build call emits to the surface: the pushed vertices,
each with the color in effect at the push, and the line width of the final
closed-polygon draw call. -/
structure BuildOut where
  vertices : List (Vec2 × Color)
  lineWidth : ℝ

/-- Render pass of one polygon (Go func Polygon.build, src/main.go:40):
pushes every stored point as a 2D vertex, then indexes Points[0] to push
the first point again, then draws the closed polygon with line width 1.
The Points[0] access on an empty point list is a Go index panic, modelled
as none. -/
def Polygon.build (p : Polygon) : Option BuildOut :=
  match p.Points[0]? with
  | none => none
  | some p0 =>
      some
        { vertices :=
            p.Points.map (fun point => (⟨point.X, point.Y⟩, p.Color))
              ++ [(⟨p0.X, p0.Y⟩, p.Color)]
          lineWidth := 1 }

/-- The scene (Go struct Space, src/main.go:129). -/
structure Space where
  Matrix : Matrix
  Objects : List Polygon

/-- Go func NewSpace, src/main.go:134: identity matrix, no objects. -/
def NewSpace : Space :=
  { Matrix :=
      { X := ⟨1, 0, 0⟩
        Y := ⟨0, 1, 0⟩
        Z := ⟨0, 0, 1⟩ }
    Objects := [] }

/-- Go func Space.Rotate, src/main.go:145: replaces the stored matrix by
the componentwise product written out in the source. -/
def Space.Rotate (s : Space) (rotationMatrix : ThreeDView.Matrix) : Space :=
  { s with
    Matrix :=
      { X :=
          { X := s.Matrix.X.X * rotationMatrix.X.X + s.Matrix.X.Y * rotationMatrix.Y.X + s.Matrix.X.Z * rotationMatrix.Z.X
            Y := s.Matrix.X.X * rotationMatrix.X.Y + s.Matrix.X.Y * rotationMatrix.Y.Y + s.Matrix.X.Z * rotationMatrix.Z.Y
            Z := s.Matrix.X.X * rotationMatrix.X.Z + s.Matrix.X.Y * rotationMatrix.Y.Z + s.Matrix.X.Z * rotationMatrix.Z.Z }
        Y :=
          { X := s.Matrix.Y.X * rotationMatrix.X.X + s.Matrix.Y.Y * rotationMatrix.Y.X + s.Matrix.Y.Z * rotationMatrix.Z.X
            Y := s.Matrix.Y.X * rotationMatrix.X.Y + s.Matrix.Y.Y * rotationMatrix.Y.Y + s.Matrix.Y.Z * rotationMatrix.Z.Y
            Z := s.Matrix.Y.X * rotationMatrix.X.Z + s.Matrix.Y.Y * rotationMatrix.Y.Z + s.Matrix.Y.Z * rotationMatrix.Z.Z }
        Z :=
          { X := s.Matrix.Z.X * rotationMatrix.X.X + s.Matrix.Z.Y * rotationMatrix.Y.X + s.Matrix.Z.Z * rotationMatrix.Z.X
            Y := s.Matrix.Z.X * rotationMatrix.X.Y + s.Matrix.Z.Y * rotationMatrix.Y.Y + s.Matrix.Z.Z * rotationMatrix.Z.Y
            Z := s.Matrix.Z.X * rotationMatrix.X.Z + s.Matrix.Z.Y * rotationMatrix.Y.Z + s.Matrix.Z.Z * rotationMatrix.Z.Z } } }

/-- Go func Space.RotateX, src/main.go:166. -/
def Space.RotateX (s : Space) (angle : ℝ) : Space :=
  s.Rotate
    { X := ⟨1, 0, 0⟩
      Y := ⟨0, Real.cos angle, Real.sin angle⟩
      Z := ⟨0, -Real.sin angle, Real.cos angle⟩ }

/-- Go func Space.RotateY, src/main.go:175. -/
def Space.RotateY (s : Space) (angle : ℝ) : Space :=
  s.Rotate
    { X := ⟨Real.cos angle, 0, -Real.sin angle⟩
      Y := ⟨0, 1, 0⟩
      Z := ⟨Real.sin angle, 0, Real.cos angle⟩ }

/-- Go func Space.RotateZ, src/main.go:184. -/
def Space.RotateZ (s : Space) (angle : ℝ) : Space :=
  s.Rotate
    { X := ⟨Real.cos angle, Real.sin angle, 0⟩
      Y := ⟨-Real.sin angle, Real.cos angle, 0⟩
      Z := ⟨0, 0, 1⟩ }

/-- Go func Space.AddObject, src/main.go:194. -/
def Space.AddObject (s : Space) (p : Polygon) : Space :=
  { s with Objects := s.Objects ++ [p] }

/-- Go type PointsSet, src/main.go:97. -/
abbrev PointsSet := List Point

/-- The local point-set list built by Space.Draw (src/main.go:210-217).
The Go code allocates each set with make([]Point, 3), which yields three
zero-valued points, and then appends the matrix-transformed points of the
polygon after them. -/
def Space.drawPointSets (s : Space) : List PointsSet :=
  s.Objects.map (fun obj =>
    List.replicate 3 ({ X := 0, Y := 0, Z := 0 } : Point)
      ++ obj.Points.map (matrixMultiply s.Matrix))

/-- The comparator of the sort (Go func ByCentroidDistance.Less,
src/main.go:112): a set sorts before another when its centroid is
strictly farther from the reference point. -/
def ByCentroidDistance.Less (refPoint : Point) (a b : PointsSet) : Prop :=
  euclideanDistance (computeCentroid a) refPoint
    > euclideanDistance (computeCentroid b) refPoint

/-- Sorting by the ByCentroidDistance comparator (sort.Sort at
src/main.go:218); the precise permutation sort.Sort chooses is
implementation-defined, and Space.Draw discards the result. -/
def sortByCentroidDistance (refPoint : Point) (l : List PointsSet) : List PointsSet :=
  l.mergeSort (fun a b =>
    decide (euclideanDistance (computeCentroid a) refPoint
      ≥ euclideanDistance (computeCentroid b) refPoint))

/-- Go func Space.Draw, src/main.go:206: builds the local point-set list,
sorts it (the sorted list is then never read again), and renders every
object of the scene, in the order of the Objects list, transformed by the
current matrix.  Returns the scene state after the call together with the
per-object render output. -/
def Space.Draw (s : Space) : Space × List (Option BuildOut) :=
  let referencePoint : Point := { X := 0, Y := 0, Z := 200 }
  let polygons := s.drawPointSets
  let _sorted := sortByCentroidDistance referencePoint polygons
  (s, s.Objects.map (fun obj => (obj.Transform s.Matrix).build))

/-- Row-vector times matrix, following the words of the spec (section 4.1):
each result coordinate is the dot product of the row with the
corresponding column of the matrix. -/
def rowTimesMatrix (v : Vector) (m : Matrix) : Vector :=
  { X := v.X * m.X.X + v.Y * m.Y.X + v.Z * m.Z.X
    Y := v.X * m.X.Y + v.Y * m.Y.Y + v.Z * m.Z.Y
    Z := v.X * m.X.Z + v.Y * m.Y.Z + v.Z * m.Z.Z }

/-- Matrix-matrix product under the row-vector convention, following the
words of the spec (section 4.4): every row of the current matrix is
multiplied by the delta matrix. -/
def matrixProduct (a b : Matrix) : Matrix :=
  { X := rowTimesMatrix a.X b
    Y := rowTimesMatrix a.Y b
    Z := rowTimesMatrix a.Z b }

/-- A concrete polygon used for the evaluations at concrete inputs. -/
def samplePolygon : Polygon :=
  { Points := [⟨1, 2, 3⟩, ⟨4, 5, 6⟩, ⟨7, 8, 9⟩], Color := 5 }

/-- A concrete matrix used for the evaluations at concrete inputs. -/
def sampleMatrix : Matrix :=
  { X := ⟨1, 0, 0⟩, Y := ⟨0, 1, 0⟩, Z := ⟨0, 0, 1⟩ }

/-- A concrete one-object scene used for the evaluations at concrete inputs. -/
def sampleSpace : Space :=
  { Matrix := sampleMatrix, Objects := [samplePolygon] }

/-- A concrete polygon exhibiting the point-set padding in Space.Draw. -/
def c1Polygon : Polygon :=
  { Points := [⟨3, 0, 0⟩, ⟨0, 3, 0⟩, ⟨0, 0, 3⟩], Color := 0 }

/-- A one-object scene under the identity matrix, built through the source
constructors. -/
def c1Space : Space :=
  NewSpace.AddObject c1Polygon

/-- C3: NewPolygon fails with InvalidGeometry exactly when fewer than 3
points are supplied; with 3 or more it returns the polygon storing the
input points unchanged and the given color. -/
theorem NewPolygon_three_point_rule (points : List Point) (c : Color) :
    (points.length < 3 → NewPolygon points c = .error .InvalidGeometry) ∧
    (3 ≤ points.length → NewPolygon points c = .ok { Points := points, Color := c }) := by
  refine ⟨fun h => ?_, fun h => ?_⟩
  · simp [NewPolygon, h]
  · simp [NewPolygon, Nat.not_lt.mpr h]

/-- Witness for C3 at the empty list and at a concrete 3-point list. -/
theorem NewPolygon_three_point_rule_witness :
    NewPolygon [] 0 = .error .InvalidGeometry ∧
    NewPolygon [⟨0, 0, 0⟩, ⟨1, 0, 0⟩, ⟨0, 1, 0⟩] 0 =
      .ok { Points := [⟨0, 0, 0⟩, ⟨1, 0, 0⟩, ⟨0, 1, 0⟩], Color := 0 } :=
  ⟨(NewPolygon_three_point_rule [] 0).1 (by simp),
   (NewPolygon_three_point_rule [⟨0, 0, 0⟩, ⟨1, 0, 0⟩, ⟨0, 1, 0⟩] 0).2 (by simp)⟩

/-- C4: Space.Rotate replaces the stored matrix with the product of the
current matrix and the delta matrix, each row of the current matrix
multiplied by the delta matrix, and leaves everything else of the scene
unchanged. -/
theorem Rotate_replaces_matrix_with_product (s : Space) (d : Matrix) :
    s.Rotate d = { s with Matrix := matrixProduct s.Matrix d } := rfl

/-- C5: RotateX, RotateY and RotateZ build exactly the axis-rotation
matrices stated in the spec and compose them into the scene via Rotate. -/
theorem RotateXYZ_build_axis_matrices (s : Space) (θ : ℝ) :
    s.RotateX θ =
      s.Rotate { X := ⟨1, 0, 0⟩, Y := ⟨0, Real.cos θ, Real.sin θ⟩, Z := ⟨0, -Real.sin θ, Real.cos θ⟩ } ∧
    s.RotateY θ =
      s.Rotate { X := ⟨Real.cos θ, 0, -Real.sin θ⟩, Y := ⟨0, 1, 0⟩, Z := ⟨Real.sin θ, 0, Real.cos θ⟩ } ∧
    s.RotateZ θ =
      s.Rotate { X := ⟨Real.cos θ, Real.sin θ, 0⟩, Y := ⟨-Real.sin θ, Real.cos θ, 0⟩, Z := ⟨0, 0, 1⟩ } :=
  ⟨rfl, rfl, rfl⟩

/-- C6: Transform maps every point through the row-vector product with the
matrix, copies the color, and, being a pure function on the polygon value,
produces a fresh polygon of the same length without touching the input. -/
theorem Transform_pointwise (p : Polygon) (m : Matrix) (i : ℕ)
    (h : i < p.Points.length) :
    (p.Transform m).Points[i]? = some (matrixMultiply m (p.Points.get ⟨i, h⟩)) ∧
    (p.Transform m).Color = p.Color ∧
    (p.Transform m).Points.length = p.Points.length := by
  refine ⟨?_, rfl, by simp [Polygon.Transform]⟩
  simp [Polygon.Transform, matrixMultiply, List.getElem?_eq_getElem h]

/-- Witness for C6 at a concrete polygon, matrix and index. -/
theorem Transform_pointwise_witness :
    (samplePolygon.Transform sampleMatrix).Points[0]? =
      some (matrixMultiply sampleMatrix (samplePolygon.Points.get ⟨0, by simp [samplePolygon]⟩)) ∧
    (samplePolygon.Transform sampleMatrix).Color = samplePolygon.Color ∧
    (samplePolygon.Transform sampleMatrix).Points.length = samplePolygon.Points.length :=
  Transform_pointwise samplePolygon sampleMatrix 0 (by simp [samplePolygon])

/-- C7: build pushes every stored point, in order, as a 2D vertex with the
polygon color, re-pushes the first point to close the outline, draws with
line width 1, and emits exactly one vertex more than the point count. -/
theorem build_emits_closed_outline (p : Polygon) (p0 : Point)
    (h : p.Points[0]? = some p0) :
    p.build =
      some { vertices :=
               p.Points.map (fun point => (⟨point.X, point.Y⟩, p.Color))
                 ++ [(⟨p0.X, p0.Y⟩, p.Color)]
             lineWidth := 1 } ∧
    ∀ out : BuildOut, p.build = some out → out.vertices.length = p.Points.length + 1 := by
  have hb : p.build =
      some { vertices :=
               p.Points.map (fun point => (⟨point.X, point.Y⟩, p.Color))
                 ++ [(⟨p0.X, p0.Y⟩, p.Color)]
             lineWidth := 1 } := by
    simp [Polygon.build, h]
  refine ⟨hb, fun out hout => ?_⟩
  rw [hb] at hout
  injection hout with hout
  subst hout
  simp

/-- Witness for C7 at a concrete polygon. -/
theorem build_emits_closed_outline_witness :
    samplePolygon.build =
      some { vertices :=
               samplePolygon.Points.map
                 (fun point => (⟨point.X, point.Y⟩, samplePolygon.Color))
                 ++ [(⟨(1 : ℝ), (2 : ℝ)⟩, samplePolygon.Color)]
             lineWidth := 1 } ∧
    ∀ out : BuildOut, samplePolygon.build = some out →
      out.vertices.length = samplePolygon.Points.length + 1 :=
  build_emits_closed_outline samplePolygon ⟨1, 2, 3⟩ (by simp [samplePolygon])

/-- C8: rotating by angle zero about any axis leaves the scene unchanged. -/
theorem rotate_zero_is_noop (s : Space) :
    s.RotateX 0 = s ∧ s.RotateY 0 = s ∧ s.RotateZ 0 = s := by
  obtain ⟨⟨⟨a, b, c⟩, ⟨d, e, f⟩, ⟨g, h, i⟩⟩, objs⟩ := s
  refine ⟨?_, ?_, ?_⟩ <;>
    simp [Space.RotateX, Space.RotateY, Space.RotateZ, Space.Rotate,
      Real.cos_zero, Real.sin_zero]

/-- C2: the render pass of Space.Draw emits one output per scene object,
and the output at every index is exactly the build of that same object
re-transformed by the current matrix: polygons are rendered in their
original insertion order, independent of the sorted point sets. -/
theorem Draw_renders_in_insertion_order (s : Space) (i : ℕ)
    (h : i < s.Objects.length) :
    (s.Draw).2.length = s.Objects.length ∧
    (s.Draw).2[i]? = some ((s.Objects.get ⟨i, h⟩).Transform s.Matrix).build := by
  refine ⟨by simp [Space.Draw], ?_⟩
  simp [Space.Draw, List.getElem?_eq_getElem h]

/-- Witness for C2 at a concrete one-object scene. -/
theorem Draw_renders_in_insertion_order_witness :
    (sampleSpace.Draw).2.length = sampleSpace.Objects.length ∧
    (sampleSpace.Draw).2[0]? =
      some ((sampleSpace.Objects.get ⟨0, by simp [sampleSpace]⟩).Transform
        sampleSpace.Matrix).build :=
  Draw_renders_in_insertion_order sampleSpace 0 (by simp [sampleSpace])

/-- C9: Space.Draw leaves the scene state untouched: the scene coming out
of the call is the one that went in, matrix and object list included; the
sort operates only on the locally built point sets. -/
theorem Draw_preserves_scene_state (s : Space) :
    (s.Draw).1 = s ∧ (s.Draw).1.Matrix = s.Matrix ∧ (s.Draw).1.Objects = s.Objects :=
  ⟨rfl, rfl, rfl⟩

/-- C10: a polygon obtained from NewPolygon has at least 3 points, so the
Points[0] access of build is in bounds and build succeeds. -/
theorem build_safe_after_NewPolygon (pts : List Point) (c : Color) (p : Polygon)
    (h : NewPolygon pts c = .ok p) :
    p.Points[0]?.isSome ∧ (p.build).isSome := by
  have hcases : ¬pts.length < 3 ∧ p = { Points := pts, Color := c } := by
    by_cases hc : pts.length < 3
    · simp [NewPolygon, hc] at h
    · simp [NewPolygon, hc] at h
      exact ⟨hc, h.symm⟩
  obtain ⟨hlen, rfl⟩ := hcases
  have h0 : (0 : ℕ) < pts.length := by omega
  have hp0 : pts[0]? = some pts[0] := List.getElem?_eq_getElem h0
  exact ⟨by simp [hp0], by simp [Polygon.build, hp0]⟩

/-- Witness for C10 at a concrete successful construction. -/
theorem build_safe_after_NewPolygon_witness :
    ({ Points := [⟨0, 0, 0⟩, ⟨1, 1, 1⟩, ⟨2, 2, 2⟩], Color := 7 } : Polygon).Points[0]?.isSome ∧
    (({ Points := [⟨0, 0, 0⟩, ⟨1, 1, 1⟩, ⟨2, 2, 2⟩], Color := 7 } : Polygon).build).isSome :=
  build_safe_after_NewPolygon [⟨0, 0, 0⟩, ⟨1, 1, 1⟩, ⟨2, 2, 2⟩] 7
    { Points := [⟨0, 0, 0⟩, ⟨1, 1, 1⟩, ⟨2, 2, 2⟩], Color := 7 }
    (by simp [NewPolygon])

/-- C1: evaluation of the depth-ordering pass at a concrete scene: the
point set Space.Draw builds for its single polygon carries three
zero-valued padding points coming from make([]Point, 3) in front of the
matrix-transformed points, so the centroid the sort uses differs from the
centroid of exactly that polygon's matrix-transformed points. -/
theorem draw_point_sets_are_padded :
    c1Space.drawPointSets =
      [[⟨0, 0, 0⟩, ⟨0, 0, 0⟩, ⟨0, 0, 0⟩, ⟨3, 0, 0⟩, ⟨0, 3, 0⟩, ⟨0, 0, 3⟩]] ∧
    computeCentroid [⟨0, 0, 0⟩, ⟨0, 0, 0⟩, ⟨0, 0, 0⟩, ⟨3, 0, 0⟩, ⟨0, 3, 0⟩, ⟨0, 0, 3⟩] =
      ⟨1 / 2, 1 / 2, 1 / 2⟩ ∧
    computeCentroid (c1Polygon.Points.map (matrixMultiply c1Space.Matrix)) = ⟨1, 1, 1⟩ ∧
    (⟨1 / 2, 1 / 2, 1 / 2⟩ : Point) ≠ (⟨1, 1, 1⟩ : Point) := by
  refine ⟨?_, ?_, ?_, ?_⟩
  · simp [c1Space, c1Polygon, NewSpace, Space.AddObject, Space.drawPointSets,
      matrixMultiply, List.replicate]
  · simp [computeCentroid]
    norm_num
  · simp [c1Space, c1Polygon, NewSpace, Space.AddObject, computeCentroid,
      matrixMultiply]
  · simp [Point.mk.injEq]

end

end ThreeDView
